import Mathlib

/-!
Shallow embedding of the FLORIS farm orchestration layer
(src/floris/simulation/farm.py) and the planar coordinate rotation
exercised by src/floris/Coordinate_test.py.

Python floats are modelled as rationals (farm state) and reals (the
trigonometric rotation).  Python exceptions are modelled with Except:
a raise before any assignment is an Except.error, and because the
embedding is purely functional, an error return leaves the caller's
state value untouched by construction.

Classes of this repository that are not under src/ (Coordinate,
FlowField, TurbineMap, Wake, Turbine) are modelled from the spec; each
such definition carries a doc comment saying so.
-/

namespace Floris

/-- The spec's error taxonomy (spec section 7): MissingField for an absent
configuration key (Python KeyError), ShapeMismatch for unequal-length
sequences, InvalidConfiguration for an unrecognized wake-model identifier
(the bare Exception raised in Farm.set_wake_model). -/
inductive FarmError where
  | missingField (key : String)
  | shapeMismatch
  | invalidConfiguration (msg : String)
deriving DecidableEq, Repr

/-- Modelled from the spec: a Turbine (class not under src/) carries a
mutable yaw-angle attribute in degrees; its other operating parameters
(aerodynamic performance curves etc., out of scope per spec section 1)
are collapsed into one field so frame conditions can say they are
untouched. -/
structure Turbine where
  yaw_angle : ℚ
  params : ℚ
deriving DecidableEq, Repr

/-- The wake configuration object: Farm.set_wake_model assigns its
velocity_model and deflection_model attributes (farm.py lines 102-113).
The Wake class itself is not under src/; per the spec the two kinds are
string identifiers from a fixed table. -/
structure Wake where
  velocity_model : String
  deflection_model : String
deriving DecidableEq, Repr

/-- Modelled from the spec: the required grid resolution is an opaque
resolution descriptor supplied by the velocity model ("each velocity-model
kind has exactly one valid deflection-model kind; ... required grid
resolution ... supplied by the velocity model").  In the source this is
the attribute access self.flow_field.wake.velocity_model.model_grid_resolution
(farm.py line 115); the class resolving the kind to a model object is not
under src/, so the descriptor is modelled as a fixed per-kind value. -/
def model_grid_resolution (velocity_model : String) : Nat :=
  if velocity_model = "curl" then 10
  else if velocity_model = "gauss" then 20
  else if velocity_model = "jensen" then 30
  else 40

/-- Modelled from the spec: TurbineMap (class not under src/) "maps each
PlanarPoint to one Turbine instance; exposes an ordered sequence of
(position, turbine) pairs"; construction "fails with ShapeMismatch if
layout_x and layout_y differ in length" (spec sections 2, 4.4). -/
structure TurbineMap where
  layout : List (ℚ × ℚ)
  turbines : List Turbine
deriving DecidableEq, Repr

/-- Modelled from the spec: TurbineMap construction pairs the layout
coordinates with the supplied turbines, rejecting unequal-length
coordinate sequences with ShapeMismatch (spec sections 4.4 and 7). -/
def TurbineMap.make (layout_x layout_y : List ℚ) (turbines : List Turbine) :
    Except FarmError TurbineMap :=
  if layout_x.length = layout_y.length then
    Except.ok { layout := layout_x.zip layout_y, turbines := turbines }
  else
    Except.error FarmError.shapeMismatch

/-- FlowField (class not under src/): owns the ambient wind properties,
the TurbineMap, the active wake configuration and a discretization
resolution, per spec section 2.  The keyword arguments mirror the
FlowField(...) call in Farm.__init__ (farm.py lines 66-78). -/
structure FlowField where
  wind_speed : ℚ
  wind_direction : ℚ
  wind_shear : ℚ
  wind_veer : ℚ
  turbulence_intensity : ℚ
  air_density : ℚ
  turbine_map : TurbineMap
  wake : Wake
  resolution : Nat
deriving DecidableEq, Repr

/-- Modelled from the spec: FlowField construction discretizes its grid at
the required resolution of the supplied wake configuration's velocity
model, so the Farm invariant "resolution matches the selected velocity
model's requirement ... immediately after construction" holds. -/
def FlowField.make (wind_speed wind_direction wind_shear wind_veer
    turbulence_intensity air_density : ℚ) (turbine_map : TurbineMap)
    (wake : Wake) : FlowField :=
  { wind_speed := wind_speed
    wind_direction := wind_direction
    wind_shear := wind_shear
    wind_veer := wind_veer
    turbulence_intensity := turbulence_intensity
    air_density := air_density
    turbine_map := turbine_map
    wake := wake
    resolution := model_grid_resolution wake.velocity_model }

/-- Modelled from the spec: FlowField "exposes a re-discretization
operation parameterized by required resolution"; called as
reinitialize_flow_field(with_resolution=...) in farm.py line 115. -/
def FlowField.reinitialize_flow_field (ff : FlowField)
    (with_resolution : Nat) : FlowField :=
  { ff with resolution := with_resolution }

/-- The Farm container (farm.py).  In the Python source self.wake and
self.flow_field.wake alias one object; mutations through either are
mirrored on both fields here. -/
structure Farm where
  description : String
  wake : Wake
  flow_field : FlowField
deriving DecidableEq, Repr

/-- The "properties" sub-dictionary of the input configuration.  Every
key access in the source can raise KeyError, so each key is an Option. -/
structure Properties where
  wind_speed : Option ℚ
  wind_direction : Option ℚ
  wind_shear : Option ℚ
  wind_veer : Option ℚ
  turbulence_intensity : Option ℚ
  air_density : Option ℚ
  layout_x : Option (List ℚ)
  layout_y : Option (List ℚ)
deriving DecidableEq, Repr

/-- The instance_dictionary argument of Farm.__init__. -/
structure InstanceDictionary where
  description : Option String
  properties : Option Properties
deriving DecidableEq, Repr

/-- Python dictionary subscription: a present key yields its value, an
absent key raises KeyError, surfaced as FarmError.missingField. -/
def dictGet {α : Type} (v : Option α) (key : String) : Except FarmError α :=
  match v with
  | some x => Except.ok x
  | none => Except.error (FarmError.missingField key)

/-- Farm.__init__ (farm.py lines 59-78).  Keys are read in source order:
description, properties, layout_x, layout_y, then the FlowField keyword
arguments wind_speed .. air_density, then the TurbineMap is built from
the layout and one deep copy of the turbine template per layout_x entry
(copy.deepcopy is the identity on immutable values). -/
def Farm.init (instance_dictionary : InstanceDictionary) (turbine : Turbine)
    (wake : Wake) : Except FarmError Farm := do
  let description ← dictGet instance_dictionary.description "description"
  let properties ← dictGet instance_dictionary.properties "properties"
  let layout_x ← dictGet properties.layout_x "layout_x"
  let layout_y ← dictGet properties.layout_y "layout_y"
  let wind_speed ← dictGet properties.wind_speed "wind_speed"
  let wind_direction ← dictGet properties.wind_direction "wind_direction"
  let wind_shear ← dictGet properties.wind_shear "wind_shear"
  let wind_veer ← dictGet properties.wind_veer "wind_veer"
  let turbulence_intensity ← dictGet properties.turbulence_intensity "turbulence_intensity"
  let air_density ← dictGet properties.air_density "air_density"
  let turbine_map ← TurbineMap.make layout_x layout_y
    (List.replicate layout_x.length turbine)
  Except.ok
    { description := description
      wake := wake
      flow_field := FlowField.make wind_speed wind_direction wind_shear
        wind_veer turbulence_intensity air_density turbine_map wake }

/-- The turbine_map property (farm.py lines 205-213). -/
def Farm.turbine_map (farm : Farm) : TurbineMap :=
  farm.flow_field.turbine_map

/-- The turbines property (farm.py lines 216-225). -/
def Farm.turbines (farm : Farm) : List Turbine :=
  farm.turbine_map.turbines

/-- The list of valid wake model names (farm.py line 98). -/
def valid_wake_models : List String :=
  ["curl", "gauss", "jensen", "floris"]

/-- Farm.set_wake_model (farm.py lines 86-115): reject an unrecognized
name before any assignment; otherwise assign the documented
velocity/deflection pair on the wake configuration and re-discretize the
flow field at the new velocity model's required resolution. -/
def Farm.set_wake_model (farm : Farm) (wake_model : String) :
    Except FarmError Farm :=
  if wake_model ∉ valid_wake_models then
    Except.error (FarmError.invalidConfiguration
      ("Invalid wake model. Valid options include: "
        ++ String.intercalate ", " valid_wake_models ++ "."))
  else
    let wake0 := farm.flow_field.wake
    let wake1 :=
      if wake_model = "jensen" then
        { wake0 with velocity_model := "jensen", deflection_model := "jimenez" }
      else if wake_model = "floris" then
        { wake0 with velocity_model := "floris", deflection_model := "floris" }
      else if wake_model = "gauss" then
        { wake0 with velocity_model := "gauss", deflection_model := "gauss_deflection" }
      else if wake_model = "curl" then
        { wake0 with velocity_model := "curl", deflection_model := "curl" }
      else wake0
    let ff1 := { farm.flow_field with wake := wake1 }
    let ff2 := ff1.reinitialize_flow_field
      (model_grid_resolution ff1.wake.velocity_model)
    Except.ok { farm with wake := wake1, flow_field := ff2 }

/-- The argument of Farm.set_yaw_angles: a single scalar (float or int in
the source) or a sequence of per-turbine angles. -/
inductive YawAngles where
  | scalar (angle : ℚ)
  | seq (angles : List ℚ)
deriving DecidableEq, Repr

/-- The assignment loop of Farm.set_yaw_angles (farm.py lines 134-135):
for yaw_angle, turbine in zip(yaw_angles, self.turbines):
turbine.yaw_angle = yaw_angle.  zip stops at the shorter sequence;
turbines beyond it keep their old state. -/
def set_turbine_yaws : List ℚ → List Turbine → List Turbine
  | _, [] => []
  | [], ts => ts
  | a :: as, t :: ts => { t with yaw_angle := a } :: set_turbine_yaws as ts

/-- Farm.set_yaw_angles (farm.py lines 118-135): a scalar is broadcast to
a list of length len(self.turbines), then angles are zipped with the
turbines and assigned element-wise.  No length validation and no
flow-field recomputation occur. -/
def Farm.set_yaw_angles (farm : Farm) (yaw_angles : YawAngles) : Farm :=
  let angles :=
    match yaw_angles with
    | YawAngles.scalar a => List.replicate farm.turbines.length a
    | YawAngles.seq as => as
  { farm with
    flow_field := { farm.flow_field with
      turbine_map := { farm.flow_field.turbine_map with
        turbines := set_turbine_yaws angles farm.turbines } } }

/-- Modelled from the spec: the Coordinate class (not under src/; only its
test src/floris/Coordinate_test.py is) holds original coordinates (x, y)
and transformed coordinates (xprime, yprime) valid after a rotation. -/
structure Coordinate where
  x : ℝ
  y : ℝ
  xprime : ℝ
  yprime : ℝ

/-- Modelled from the spec: rotate_z "sets transformed coordinates using
the standard 2D rotation matrix applied to (x − origin_x, y − origin_y),
then translated back" (spec section 4.1); the origin defaults to the
coordinate-system origin, passed here explicitly as (ox, oy). -/
noncomputable def Coordinate.rotate_z (c : Coordinate) (angle ox oy : ℝ) :
    Coordinate :=
  { c with
    xprime := ox + (c.x - ox) * Real.cos angle - (c.y - oy) * Real.sin angle
    yprime := oy + (c.x - ox) * Real.sin angle + (c.y - oy) * Real.cos angle }

/-- A concrete turbine template used by the witnesses. -/
def sample_turbine : Turbine :=
  { yaw_angle := 0, params := 7 }

/-- A concrete wake configuration used by the witnesses. -/
def sample_wake : Wake :=
  { velocity_model := "jensen", deflection_model := "jimenez" }

/-- A concrete two-turbine farm used by the witnesses, with the
construction-time resolution of its velocity model. -/
def sample_farm : Farm :=
  { description := "two turbine farm"
    wake := sample_wake
    flow_field := FlowField.make 8 270 (12/100) 0 (6/100) (5/4)
      { layout := [(0, 0), (600, 0)]
        turbines := [{ yaw_angle := 1, params := 7 }, { yaw_angle := 2, params := 9 }] }
      sample_wake }

/-- The zip-assignment loop writes the first min(M, N) angles over the
yaw attributes in order and keeps the remaining turbines' yaw values. -/
theorem set_turbine_yaws_map_yaw (as : List ℚ) (ts : List Turbine) :
    (set_turbine_yaws as ts).map Turbine.yaw_angle =
      as.take ts.length ++ (ts.map Turbine.yaw_angle).drop as.length := by
  induction as generalizing ts with
  | nil => cases ts <;> simp [set_turbine_yaws]
  | cons a as ih =>
    cases ts with
    | nil => simp [set_turbine_yaws]
    | cons t ts => simp [set_turbine_yaws, ih]

/-- The zip-assignment loop touches no turbine attribute other than
yaw_angle. -/
theorem set_turbine_yaws_map_params (as : List ℚ) (ts : List Turbine) :
    (set_turbine_yaws as ts).map Turbine.params = ts.map Turbine.params := by
  induction as generalizing ts with
  | nil => cases ts <;> simp [set_turbine_yaws]
  | cons a as ih =>
    cases ts with
    | nil => simp [set_turbine_yaws]
    | cons t ts => simp [set_turbine_yaws, ih]

/-- The zip-assignment loop neither adds nor removes turbines. -/
theorem set_turbine_yaws_length (as : List ℚ) (ts : List Turbine) :
    (set_turbine_yaws as ts).length = ts.length := by
  have h := congrArg List.length (set_turbine_yaws_map_params as ts)
  simpa using h

/-- C5: a single scalar yaw angle is broadcast to every turbine: after
set_yaw_angles with a scalar, all N turbines carry that angle, in
turbine-map iteration order. -/
theorem scalar_yaw_broadcast (farm : Farm) (a : ℚ) :
    (farm.set_yaw_angles (YawAngles.scalar a)).turbines.map Turbine.yaw_angle =
      List.replicate farm.turbines.length a := by
  simp [Farm.set_yaw_angles, Farm.turbines, Farm.turbine_map,
    set_turbine_yaws_map_yaw, List.take_replicate, List.drop_eq_nil_of_le]

/-- C7: set_yaw_angles modifies only the turbines' yaw-angle attributes;
the flow field's wake configuration, resolution, ambient properties and
layout, the turbine count, every other turbine attribute, and the farm's
description are unchanged — no re-discretization or recomputation. -/
theorem set_yaw_angles_frame (farm : Farm) (ya : YawAngles) :
    (farm.set_yaw_angles ya).flow_field.wake = farm.flow_field.wake ∧
    (farm.set_yaw_angles ya).flow_field.resolution = farm.flow_field.resolution ∧
    (farm.set_yaw_angles ya).flow_field.wind_speed = farm.flow_field.wind_speed ∧
    (farm.set_yaw_angles ya).flow_field.wind_direction = farm.flow_field.wind_direction ∧
    (farm.set_yaw_angles ya).flow_field.wind_shear = farm.flow_field.wind_shear ∧
    (farm.set_yaw_angles ya).flow_field.wind_veer = farm.flow_field.wind_veer ∧
    (farm.set_yaw_angles ya).flow_field.turbulence_intensity = farm.flow_field.turbulence_intensity ∧
    (farm.set_yaw_angles ya).flow_field.air_density = farm.flow_field.air_density ∧
    (farm.set_yaw_angles ya).flow_field.turbine_map.layout = farm.flow_field.turbine_map.layout ∧
    (farm.set_yaw_angles ya).turbines.length = farm.turbines.length ∧
    (farm.set_yaw_angles ya).turbines.map Turbine.params = farm.turbines.map Turbine.params ∧
    (farm.set_yaw_angles ya).description = farm.description ∧
    (farm.set_yaw_angles ya).wake = farm.wake := by
  cases ya <;>
    simp [Farm.set_yaw_angles, Farm.turbines, Farm.turbine_map,
      set_turbine_yaws_map_params, set_turbine_yaws_length]

/-- C10: a yaw-angle sequence of any length M is accepted without error
(the operation is total within its contract domain): the first
min(M, N) turbines receive the angles element-wise in turbine-map
iteration order, and turbines beyond the sequence keep their yaw. -/
theorem seq_yaw_truncation (farm : Farm) (as : List ℚ) :
    (farm.set_yaw_angles (YawAngles.seq as)).turbines.map Turbine.yaw_angle =
      as.take farm.turbines.length ++
        (farm.turbines.map Turbine.yaw_angle).drop as.length := by
  simp [Farm.set_yaw_angles, Farm.turbines, Farm.turbine_map,
    set_turbine_yaws_map_yaw]

/-- C3 counterexample: on the concrete two-turbine farm, a yaw sequence
of length 1 (mismatched against the turbine count) does not leave every
turbine's yaw unchanged: the first turbine's yaw is overwritten to 5,
so no ShapeMismatch rejection happened before assignment. -/
theorem seq_yaw_mismatch_counterexample :
    [(5 : ℚ)].length ≠ sample_farm.turbines.length ∧
    (sample_farm.set_yaw_angles (YawAngles.seq [5])).turbines.map Turbine.yaw_angle
      = [5, 2] ∧
    (sample_farm.set_yaw_angles (YawAngles.seq [5])).turbines.map Turbine.yaw_angle
      ≠ sample_farm.turbines.map Turbine.yaw_angle := by
  refine ⟨by decide, ?_, ?_⟩ <;>
    simp [sample_farm, Farm.set_yaw_angles, Farm.turbines, Farm.turbine_map,
      FlowField.make, set_turbine_yaws]

/-- C3 amended: set_yaw_angles performs no length validation.  With a
sequence whose length M differs from the turbine count N it does not
raise ShapeMismatch; it assigns the first min(M, N) turbines
element-wise and leaves the remaining turbines' yaw angles unchanged. -/
theorem seq_yaw_mismatch_no_error (farm : Farm) (as : List ℚ)
    (h : as.length ≠ farm.turbines.length) :
    (farm.set_yaw_angles (YawAngles.seq as)).turbines.map Turbine.yaw_angle =
      as.take farm.turbines.length ++
        (farm.turbines.map Turbine.yaw_angle).drop as.length := by
  simp [Farm.set_yaw_angles, Farm.turbines, Farm.turbine_map,
    set_turbine_yaws_map_yaw]

/-- Witness for the amended C3 at the concrete mismatched input. -/
theorem seq_yaw_mismatch_no_error_witness :
    [(5 : ℚ)].length ≠ sample_farm.turbines.length ∧
    (sample_farm.set_yaw_angles (YawAngles.seq [5])).turbines.map Turbine.yaw_angle =
      [(5 : ℚ)].take sample_farm.turbines.length ++
        (sample_farm.turbines.map Turbine.yaw_angle).drop [(5 : ℚ)].length :=
  ⟨by decide, seq_yaw_mismatch_no_error sample_farm [5] (by decide)⟩

/-- C1: for each valid wake-model identifier, set_wake_model succeeds,
sets the velocity-model kind to the identifier and the deflection-model
kind to its documented partner (jensen to jimenez, gauss to
gauss_deflection, floris and curl to themselves), and re-discretizes so
the flow-field resolution equals the new velocity model's required
resolution: the Farm invariant holds after the call. -/
theorem set_wake_model_valid_pair (farm : Farm) (wm : String)
    (h : wm ∈ valid_wake_models) :
    ∃ farm2, farm.set_wake_model wm = Except.ok farm2 ∧
      farm2.flow_field.wake.velocity_model = wm ∧
      farm2.flow_field.wake.deflection_model =
        (if wm = "jensen" then "jimenez"
         else if wm = "gauss" then "gauss_deflection" else wm) ∧
      farm2.flow_field.resolution =
        model_grid_resolution farm2.flow_field.wake.velocity_model := by
  simp only [valid_wake_models, List.mem_cons, List.not_mem_nil, or_false] at h
  rcases h with h | h | h | h <;> subst h <;>
    exact ⟨_, rfl, by simp [Farm.set_wake_model, valid_wake_models,
      FlowField.reinitialize_flow_field]⟩

/-- Witness for C1 at the concrete farm and the identifier "curl". -/
theorem set_wake_model_valid_pair_witness :
    "curl" ∈ valid_wake_models ∧
    ∃ farm2, sample_farm.set_wake_model "curl" = Except.ok farm2 ∧
      farm2.flow_field.wake.velocity_model = "curl" ∧
      farm2.flow_field.wake.deflection_model =
        (if "curl" = "jensen" then "jimenez"
         else if "curl" = "gauss" then "gauss_deflection" else "curl") ∧
      farm2.flow_field.resolution =
        model_grid_resolution farm2.flow_field.wake.velocity_model :=
  ⟨by decide, set_wake_model_valid_pair sample_farm "curl" (by decide)⟩

/-- C2: any string outside the four valid identifiers is rejected with
the InvalidConfiguration error raised before any assignment; since the
error is returned instead of a new farm, the caller's farm value — its
velocity model, deflection model and resolution — is untouched. -/
theorem set_wake_model_invalid_rejected (farm : Farm) (wm : String)
    (h : wm ∉ valid_wake_models) :
    farm.set_wake_model wm = Except.error (FarmError.invalidConfiguration
      "Invalid wake model. Valid options include: curl, gauss, jensen, floris.") := by
  unfold Farm.set_wake_model
  rw [if_pos h]
  rfl

/-- Witness for C2 at the concrete farm and the identifier used by the
spec's example, "not_a_model". -/
theorem set_wake_model_invalid_rejected_witness :
    "not_a_model" ∉ valid_wake_models ∧
    sample_farm.set_wake_model "not_a_model" =
      Except.error (FarmError.invalidConfiguration
        "Invalid wake model. Valid options include: curl, gauss, jensen, floris.") :=
  ⟨by decide, set_wake_model_invalid_rejected sample_farm "not_a_model" (by decide)⟩

/-- Bind on a successful Except step runs the continuation. -/
theorem except_ok_bind {ε α β : Type} (a : α) (f : α → Except ε β) :
    (Except.ok a : Except ε α) >>= f = f a := rfl

/-- Bind on a failed Except step short-circuits: the raise propagates. -/
theorem except_error_bind {ε α β : Type} (e : ε) (f : α → Except ε β) :
    (Except.error e : Except ε α) >>= f = Except.error e := rfl

/-- C4: a fully populated configuration whose layout_x and layout_y
sequences differ in length is rejected at construction with
ShapeMismatch: no Farm value is produced, so no turbine of the rejected
farm is observable. -/
theorem init_shape_mismatch (desc : String) (ws wd wsh wv ti ad : ℚ)
    (lx ly : List ℚ) (t : Turbine) (w : Wake)
    (h : lx.length ≠ ly.length) :
    Farm.init
      { description := some desc
        properties := some
          { wind_speed := some ws, wind_direction := some wd
            wind_shear := some wsh, wind_veer := some wv
            turbulence_intensity := some ti, air_density := some ad
            layout_x := some lx, layout_y := some ly } } t w
      = Except.error FarmError.shapeMismatch := by
  simp [Farm.init, dictGet, TurbineMap.make, except_ok_bind,
    except_error_bind, if_neg h]

/-- Witness for C4 at the spec's example: layout_x of length 3 against
layout_y of length 2. -/
theorem init_shape_mismatch_witness :
    [(0 : ℚ), 1, 2].length ≠ [(0 : ℚ), 1].length ∧
    Farm.init
      { description := some "test farm"
        properties := some
          { wind_speed := some 8, wind_direction := some 270
            wind_shear := some (12/100), wind_veer := some 0
            turbulence_intensity := some (6/100), air_density := some (5/4)
            layout_x := some [0, 1, 2], layout_y := some [0, 1] } }
      sample_turbine sample_wake
      = Except.error FarmError.shapeMismatch :=
  ⟨by decide, init_shape_mismatch "test farm" 8 270 (12/100) 0 (6/100) (5/4)
    [0, 1, 2] [0, 1] sample_turbine sample_wake (by decide)⟩

/-- C6: constructing a Farm from equal-length layouts of length N yields
a turbine map with exactly N turbines, each a copy of the supplied
template (copy.deepcopy per layout entry); turbines are independent
values: overwriting turbine i leaves every turbine j at a different
index unchanged. -/
theorem init_turbine_count (desc : String) (ws wd wsh wv ti ad : ℚ)
    (lx ly : List ℚ) (t : Turbine) (w : Wake)
    (h : lx.length = ly.length) :
    ∃ farm2, Farm.init
      { description := some desc
        properties := some
          { wind_speed := some ws, wind_direction := some wd
            wind_shear := some wsh, wind_veer := some wv
            turbulence_intensity := some ti, air_density := some ad
            layout_x := some lx, layout_y := some ly } } t w
      = Except.ok farm2 ∧
      farm2.turbines.length = lx.length ∧
      farm2.turbines = List.replicate lx.length t ∧
      ∀ i j : Nat, i ≠ j → ∀ t2 : Turbine,
        (farm2.turbines.set i t2)[j]? = farm2.turbines[j]? := by
  refine ⟨{ description := desc, wake := w
            flow_field := FlowField.make ws wd wsh wv ti ad
              { layout := lx.zip ly, turbines := List.replicate lx.length t } w },
          ?_, ?_, ?_, ?_⟩
  · simp [Farm.init, dictGet, TurbineMap.make, except_ok_bind,
      except_error_bind, if_pos h]
  · simp [Farm.turbines, Farm.turbine_map, FlowField.make]
  · simp [Farm.turbines, Farm.turbine_map, FlowField.make]
  · intro i j hij t2
    exact List.getElem?_set_ne hij

/-- Witness for C6 at a concrete three-turbine configuration. -/
theorem init_turbine_count_witness :
    [(0 : ℚ), 600, 1200].length = [(0 : ℚ), 0, 0].length ∧
    ∃ farm2, Farm.init
      { description := some "three turbine farm"
        properties := some
          { wind_speed := some 8, wind_direction := some 270
            wind_shear := some (12/100), wind_veer := some 0
            turbulence_intensity := some (6/100), air_density := some (5/4)
            layout_x := some [0, 600, 1200], layout_y := some [0, 0, 0] } }
      sample_turbine sample_wake
      = Except.ok farm2 ∧
      farm2.turbines.length = [(0 : ℚ), 600, 1200].length ∧
      farm2.turbines = List.replicate [(0 : ℚ), 600, 1200].length sample_turbine ∧
      ∀ i j : Nat, i ≠ j → ∀ t2 : Turbine,
        (farm2.turbines.set i t2)[j]? = farm2.turbines[j]? :=
  ⟨by decide, init_turbine_count "three turbine farm" 8 270 (12/100) 0 (6/100)
    (5/4) [0, 600, 1200] [0, 0, 0] sample_turbine sample_wake (by decide)⟩

/-- C9: a configuration record missing any required key (description,
properties, or any ambient-property or layout key under properties) is
rejected at construction with a MissingField error; no Farm is
produced. -/
theorem init_missing_field (d : InstanceDictionary) (t : Turbine) (w : Wake)
    (h : d.description = none ∨ d.properties = none ∨
      ∃ p, d.properties = some p ∧
        (p.wind_speed = none ∨ p.wind_direction = none ∨
         p.wind_shear = none ∨ p.wind_veer = none ∨
         p.turbulence_intensity = none ∨ p.air_density = none ∨
         p.layout_x = none ∨ p.layout_y = none)) :
    ∃ key, Farm.init d t w = Except.error (FarmError.missingField key) := by
  obtain ⟨od, op⟩ := d
  rcases h with h | h | ⟨p, hp, h⟩
  · simp only at h
    subst h
    exact ⟨"description", rfl⟩
  · simp only at h
    subst h
    cases od with
    | none => exact ⟨"description", rfl⟩
    | some dv => exact ⟨"properties", rfl⟩
  · simp only at hp
    subst hp
    cases od with
    | none => exact ⟨"description", rfl⟩
    | some dv =>
      obtain ⟨ws, wd, wsh, wv, ti, ad, lx, ly⟩ := p
      simp only at h
      cases lx <;> cases ly <;> cases ws <;> cases wd <;>
        cases wsh <;> cases wv <;> cases ti <;> cases ad <;>
        first
        | exact ⟨"layout_x", rfl⟩
        | exact ⟨"layout_y", rfl⟩
        | exact ⟨"wind_speed", rfl⟩
        | exact ⟨"wind_direction", rfl⟩
        | exact ⟨"wind_shear", rfl⟩
        | exact ⟨"wind_veer", rfl⟩
        | exact ⟨"turbulence_intensity", rfl⟩
        | exact ⟨"air_density", rfl⟩
        | simp at h

/-- Witness for C9 at a concrete record whose description key is
absent. -/
theorem init_missing_field_witness :
    (({ description := none
        properties := some
          { wind_speed := some 8, wind_direction := some 270
            wind_shear := some (12/100), wind_veer := some 0
            turbulence_intensity := some (6/100), air_density := some (5/4)
            layout_x := some [0], layout_y := some [0] } } :
        InstanceDictionary).description = none ∨
      ({ description := none
         properties := some
          { wind_speed := some 8, wind_direction := some 270
            wind_shear := some (12/100), wind_veer := some 0
            turbulence_intensity := some (6/100), air_density := some (5/4)
            layout_x := some [0], layout_y := some [0] } } :
        InstanceDictionary).properties = none ∨
      ∃ p, ({ description := none
              properties := some
                { wind_speed := some 8, wind_direction := some 270
                  wind_shear := some (12/100), wind_veer := some 0
                  turbulence_intensity := some (6/100), air_density := some (5/4)
                  layout_x := some [0], layout_y := some [0] } } :
              InstanceDictionary).properties = some p ∧
        (p.wind_speed = none ∨ p.wind_direction = none ∨
         p.wind_shear = none ∨ p.wind_veer = none ∨
         p.turbulence_intensity = none ∨ p.air_density = none ∨
         p.layout_x = none ∨ p.layout_y = none)) ∧
    ∃ key, Farm.init
      { description := none
        properties := some
          { wind_speed := some 8, wind_direction := some 270
            wind_shear := some (12/100), wind_veer := some 0
            turbulence_intensity := some (6/100), air_density := some (5/4)
            layout_x := some [0], layout_y := some [0] } }
      sample_turbine sample_wake
      = Except.error (FarmError.missingField key) :=
  ⟨Or.inl rfl, init_missing_field _ sample_turbine sample_wake (Or.inl rfl)⟩

/-- C8: the point (1, 0) rotated by pi/2 radians about the origin lands
at (0, 1): the transformed coordinates are exactly xprime = 0 and
yprime = 1 in the real-valued model (hence within any floating-point
tolerance). -/
theorem rotation_example :
    ((Coordinate.mk 1 0 0 0).rotate_z (Real.pi / 2) 0 0).xprime = 0 ∧
    ((Coordinate.mk 1 0 0 0).rotate_z (Real.pi / 2) 0 0).yprime = 1 := by
  constructor <;>
    simp [Coordinate.rotate_z, Real.cos_pi_div_two, Real.sin_pi_div_two]

end Floris
